import Mathlib

/-!
Verification of the cross-version argument-marshaling shim of `pgx`
(`src/pgx/src/fcinfo.rs`), against the host-ABI struct layouts of
`src/pgx-pg-sys/generated-bindings/pg12_specific.rs`.

The embedding models machine `usize` raw values as `Nat`; Rust indexing
panics are modelled by `ReadResult.panics`, and reads past the end of a
heap allocation (defined for the slice but outside the allocated tail)
by `ReadResult.undef`.  Frame mutation is modelled by explicit state
passing: a native function pointer is a pure map
`frame → frame × Datum`.
-/

namespace Pgx

/-- A raw Postgres `Datum` (`usize` in the bindings): an untyped
fixed-width value, modelled as `Nat`. -/
abbrev Datum := Nat

/-- Modelled from the spec: the external nullable-value wrapper
`PgDatum` (crate `pgx`, not under `src/`): a pair of a raw value and a
null flag, built with `PgDatum::new`, queried with `is_null`, unwrapped
with `into_datum`. -/
structure PgDatum where
  value : Datum
  is_null : Bool
deriving Repr, DecidableEq

/-- `PgDatum::new(datum, is_null)`. -/
def PgDatum.new (value : Datum) (is_null : Bool) : PgDatum :=
  ⟨value, is_null⟩

/-- `PgDatum::into_datum`. -/
def PgDatum.into_datum (d : PgDatum) : Datum := d.value

/-- Outcome of reading from a frame's argument area:
`panics` is a Rust bounds-check panic, `undef` is a read that the slice
bounds allow but that falls outside the actual allocation (adjacent
memory, value unspecified), `ok v` is a well-defined read of `v`. -/
inductive ReadResult (α : Type) where
  | panics : ReadResult α
  | undef : ReadResult α
  | ok : α → ReadResult α
deriving Repr, DecidableEq

/-- Sequencing of reads: a panic or an undefined read poisons what
follows. -/
def ReadResult.bind {α β : Type} : ReadResult α → (α → ReadResult β) → ReadResult β
  | .panics, _ => .panics
  | .undef, _ => .undef
  | .ok a, f => f a

/-- Rust array/slice indexing `xs[i]`: the value when `i` is in bounds,
a panic otherwise. -/
def listRead {α : Type} (xs : List α) (i : Nat) : ReadResult α :=
  match xs[i]? with
  | some v => .ok v
  | none => .panics

/-- The value of `nargs as i16` (two's-complement wrap of a `usize`). -/
def i16OfNat (n : Nat) : Int :=
  (((n : Int) + 2 ^ 15) % 2 ^ 16) - 2 ^ 15

/-- The value of `nargs as usize` for an `i16` input (sign extension
reinterpreted as a 64-bit unsigned value). -/
def usizeOfI16 (n : Int) : Nat :=
  ((n % 2 ^ 64).toNat)

/-- Modelled from the spec: `pg_sys::InvalidOid` (crate `pgx-pg-sys`,
not under `src/`), the zero collation identifier. -/
def InvalidOid : Nat := 0

namespace pg_10_11

/-- `pg10_specific`/`pg11_specific` `FunctionCallInfoData` (Shape A):
fixed header plus two fixed-capacity parallel arrays `arg : [Datum; 100]`
and `argnull : [bool; 100]`.  Pointers are modelled as `Nat` addresses
(0 = null). -/
structure FunctionCallInfoData where
  flinfo : Nat
  context : Nat
  resultinfo : Nat
  fncollation : Nat
  isnull : Bool
  nargs : Int
  arg : List Datum
  argnull : List Bool
deriving Repr, DecidableEq

/-- `pg_10_11::pg_getarg` : `PgDatum::new(fcinfo.arg[num], fcinfo.argnull[num])`. -/
def pg_getarg (fcinfo : FunctionCallInfoData) (num : Nat) : ReadResult PgDatum :=
  (listRead fcinfo.arg num).bind fun v =>
  (listRead fcinfo.argnull num).bind fun b =>
  .ok (PgDatum.new v b)

/-- `pg_10_11::pg_arg_is_null` : `fcinfo.argnull[num]`. -/
def pg_arg_is_null (fcinfo : FunctionCallInfoData) (num : Nat) : ReadResult Bool :=
  listRead fcinfo.argnull num

/-- `pg_10_11::pg_getarg_datum` : `None` when null, else `Some(fcinfo.arg[num])`. -/
def pg_getarg_datum (fcinfo : FunctionCallInfoData) (num : Nat) : ReadResult (Option Datum) :=
  (pg_arg_is_null fcinfo num).bind fun b =>
  if b then .ok none
  else (listRead fcinfo.arg num).bind fun v => .ok (some v)

/-- `pg_10_11::pg_getarg_datum_raw` : `fcinfo.arg[num]`. -/
def pg_getarg_datum_raw (fcinfo : FunctionCallInfoData) (num : Nat) : ReadResult Datum :=
  listRead fcinfo.arg num

/-- `pg_10_11::pg_return_null` : sets `isnull = true` in place and
returns `0 as Datum`; the updated frame is returned explicitly. -/
def pg_return_null (fcinfo : FunctionCallInfoData) : FunctionCallInfoData × Datum :=
  ({ fcinfo with isnull := true }, 0)

/-- The full calling shape of `pg_10_11::pg_arg_is_null`: the source
takes the frame by pointer and its body contains no store, so the frame
handed back to the caller is the one passed in. -/
def pg_arg_is_null_call (fcinfo : FunctionCallInfoData) (num : Nat) :
    ReadResult Bool × FunctionCallInfoData :=
  (pg_arg_is_null fcinfo num, fcinfo)

end pg_10_11

namespace pg_12

/-- `pg12_specific::NullableDatum`: `{ value: Datum, isnull: bool }`. -/
structure NullableDatum where
  value : Datum
  isnull : Bool
deriving Repr, DecidableEq

/-- `pg12_specific::FunctionCallInfoBaseData` (Shape B): fixed header
followed by a variable-length tail `args` of `NullableDatum` pairs; the
list models exactly the pairs inside the frame's allocation. -/
structure FunctionCallInfoBaseData where
  flinfo : Nat
  context : Nat
  resultinfo : Nat
  fncollation : Nat
  isnull : Bool
  nargs : Int
  args : List NullableDatum
deriving Repr, DecidableEq

/-- Round `off` up to a multiple of `align` (C struct field placement). -/
def alignUp (off align : Nat) : Nat :=
  ((off + align - 1) / align) * align

/-- Size and alignment of a `#[repr(C)]` struct from the (size,
alignment) of its fields in declaration order. -/
def structLayout (fields : List (Nat × Nat)) : Nat × Nat :=
  let acc := fields.foldl
    (fun (acc : Nat × Nat) fld => (alignUp acc.1 fld.2 + fld.1, max acc.2 fld.2)) (0, 1)
  (alignUp acc.1 acc.2, acc.2)

/-- `size_of::<NullableDatum>()`: fields `value : Datum` (usize: 8/8)
and `isnull : bool` (1/1). -/
def sizeOfNullableDatum : Nat :=
  (structLayout [(8, 8), (1, 1)]).1

/-- `size_of::<FunctionCallInfoBaseData>()`: fields `flinfo`, `context`,
`resultinfo` (pointers: 8/8), `fncollation : Oid` (u32: 4/4),
`isnull : bool` (1/1), `nargs : c_short` (2/2), and the incomplete
array field `args` (size 0, align 8). -/
def sizeOfFunctionCallInfoBaseData : Nat :=
  (structLayout [(8, 8), (8, 8), (8, 8), (4, 4), (1, 1), (2, 2), (0, 8)]).1

/-- `pg_12::get_nullable_datum`: reads `nargs`, forms
`len = size_of::<NullableDatum>() * nargs as usize`, and indexes
`fcinfo.args.as_slice(len)[num]`.  `len` is a byte count used as the
slice's element count, so indices up to `16 * nargs - 1` pass the
slice's bounds check; those at or past the allocated tail read adjacent
memory (`undef`). -/
def get_nullable_datum (fcinfo : FunctionCallInfoBaseData) (num : Nat) :
    ReadResult NullableDatum :=
  let nargs := usizeOfI16 fcinfo.nargs
  let len := sizeOfNullableDatum * nargs
  if num < len then
    match fcinfo.args[num]? with
    | some nd => .ok nd
    | none => .undef
  else .panics

/-- `pg_12::pg_getarg` : `PgDatum::new(datum.value, datum.isnull)` from
`get_nullable_datum`. -/
def pg_getarg (fcinfo : FunctionCallInfoBaseData) (num : Nat) : ReadResult PgDatum :=
  (get_nullable_datum fcinfo num).bind fun d => .ok (PgDatum.new d.value d.isnull)

/-- `pg_12::pg_arg_is_null` : `get_nullable_datum(fcinfo, num).isnull`. -/
def pg_arg_is_null (fcinfo : FunctionCallInfoBaseData) (num : Nat) : ReadResult Bool :=
  (get_nullable_datum fcinfo num).bind fun d => .ok d.isnull

/-- `pg_12::pg_getarg_datum` : `None` when null, else
`Some(get_nullable_datum(fcinfo, num).value)`. -/
def pg_getarg_datum (fcinfo : FunctionCallInfoBaseData) (num : Nat) :
    ReadResult (Option Datum) :=
  (pg_arg_is_null fcinfo num).bind fun b =>
  if b then .ok none
  else (get_nullable_datum fcinfo num).bind fun d => .ok (some d.value)

/-- `pg_12::pg_getarg_datum_raw` : `get_nullable_datum(fcinfo, num).value`. -/
def pg_getarg_datum_raw (fcinfo : FunctionCallInfoBaseData) (num : Nat) : ReadResult Datum :=
  (get_nullable_datum fcinfo num).bind fun d => .ok d.value

/-- `pg_12::pg_return_null` : sets `isnull = true` in place and returns
`0 as Datum`; the updated frame is returned explicitly. -/
def pg_return_null (fcinfo : FunctionCallInfoBaseData) : FunctionCallInfoBaseData × Datum :=
  ({ fcinfo with isnull := true }, 0)

/-- The full calling shape of `pg_12::pg_arg_is_null`: the source takes
the frame by pointer and its body contains no store (it only reads
`nargs` and the tail), so the frame handed back is the one passed in. -/
def pg_arg_is_null_call (fcinfo : FunctionCallInfoBaseData) (num : Nat) :
    ReadResult Bool × FunctionCallInfoBaseData :=
  (pg_arg_is_null fcinfo num, fcinfo)

end pg_12

/-- The `pg10` `make_function_call_info`: boxes a fully initialized
Shape-A struct (`PgBox::new_from_struct(...).to_pg()`, a plain copy to
host-allocated memory, modelled as the struct itself): null pointers,
`InvalidOid` collation, `isnull = false`, `nargs = nargs as i16`, and
the two parallel arrays stored as passed. -/
def make_function_call_info_pg10 (nargs : Nat) (arg_array : List Datum)
    (null_array : List Bool) : pg_10_11.FunctionCallInfoData :=
  { flinfo := 0
    context := 0
    resultinfo := 0
    fncollation := InvalidOid
    isnull := false
    nargs := i16OfNat nargs
    arg := arg_array
    argnull := null_array }

/-- The `pg11` `make_function_call_info`: identical body to the `pg10`
variant, building the `pg11_specific` Shape-A struct. -/
def make_function_call_info_pg11 (nargs : Nat) (arg_array : List Datum)
    (null_array : List Bool) : pg_10_11.FunctionCallInfoData :=
  { flinfo := 0
    context := 0
    resultinfo := 0
    fncollation := InvalidOid
    isnull := false
    nargs := i16OfNat nargs
    arg := arg_array
    argnull := null_array }

/-- The `pg12` `make_function_call_info`: calls
`palloc0(size_of::<FunctionCallInfoBaseData>() + nargs * size_of::<NullableDatum>())`
(the host allocator returns that many zero-initialized bytes, so every
header field starts zeroed and the tail holds `nargs` zeroed pairs),
sets `nargs`, then writes `slice[i] = NullableDatum { value: arg_array[i],
isnull: null_array[i] }` for `i in 0..nargs` over
`args.as_mut_slice(nargs)`.  Reading `arg_array[i]`/`null_array[i]`
panics when `nargs` exceeds either array's length (the fixed capacity
100 at the call site), modelled as `none`; the result pairs the
requested byte count with the finished frame. -/
def make_function_call_info_pg12 (nargs : Nat) (arg_array : List Datum)
    (null_array : List Bool) :
    Option (Nat × pg_12.FunctionCallInfoBaseData) :=
  let bytes := pg_12.sizeOfFunctionCallInfoBaseData + nargs * pg_12.sizeOfNullableDatum
  if nargs ≤ arg_array.length ∧ nargs ≤ null_array.length then
    some (bytes,
      { flinfo := 0
        context := 0
        resultinfo := 0
        fncollation := 0
        isnull := false
        nargs := i16OfNat nargs
        args := List.zipWith (fun v b => pg_12.NullableDatum.mk v b)
          (arg_array.take nargs) (null_array.take nargs) })
  else none

/-- The marshaling loop at the top of `direct_function_call`: starting
from `null_array = [false; 100]` and `arg_array = [0 as Datum; 100]`,
writes `null_array[i] = datum.is_null(); arg_array[i] = datum.into_datum()`
for each argument.  The write at index 100 panics, so an argument list
longer than 100 yields `none`. -/
def buildArgArrays (args : List PgDatum) :
    Option (List Datum × List Bool) :=
  if args.length ≤ 100 then
    some (args.map PgDatum.into_datum ++ List.replicate (100 - args.length) 0,
          args.map PgDatum.is_null ++ List.replicate (100 - args.length) false)
  else none

/-- `direct_function_call` as compiled for `pg10`/`pg11` (Shape A):
marshal the arguments into the fixed arrays, build the frame, call
`func`, and pair the returned raw value with the frame's `isnull` flag
as read after the call (`PgDatum::new(result, fcid.isnull)`; the
terminal `try_into().unwrap()` on `PgDatum<Datum>` is the identity,
modelled from the spec: the result is the nullable value composed of
the raw return value and that flag). -/
def direct_function_call_pg10
    (func : pg_10_11.FunctionCallInfoData → pg_10_11.FunctionCallInfoData × Datum)
    (args : List PgDatum) : Option PgDatum :=
  match buildArgArrays args with
  | none => none
  | some (aa, na) =>
    let fcid := make_function_call_info_pg10 args.length aa na
    let r := func fcid
    some (PgDatum.new r.2 r.1.isnull)

/-- `direct_function_call` as compiled for `pg12` (Shape B): same body,
with the frame built by the `pg12` `make_function_call_info`. -/
def direct_function_call_pg12
    (func : pg_12.FunctionCallInfoBaseData → pg_12.FunctionCallInfoBaseData × Datum)
    (args : List PgDatum) : Option PgDatum :=
  match buildArgArrays args with
  | none => none
  | some (aa, na) =>
    match make_function_call_info_pg12 args.length aa na with
    | none => none
    | some (_, fcid) =>
      let r := func fcid
      some (PgDatum.new r.2 r.1.isnull)

/-- Test fixture (Shape A): a native function that copies argument 0's
raw slot to its return value and leaves the frame untouched. -/
def copyArg0_pg10 (fcinfo : pg_10_11.FunctionCallInfoData) :
    pg_10_11.FunctionCallInfoData × Datum :=
  (fcinfo, fcinfo.arg.headD 0)

/-- Test fixture (Shape B): a native function that copies argument 0's
raw value to its return value and leaves the frame untouched. -/
def copyArg0_pg12 (fcinfo : pg_12.FunctionCallInfoBaseData) :
    pg_12.FunctionCallInfoBaseData × Datum :=
  (fcinfo, (fcinfo.args.headD ⟨0, false⟩).value)

/-- The Shape-A frame `direct_function_call` builds for `args`
(meaningful when `args.length ≤ 100`, i.e. when marshaling succeeds). -/
def marshalledFrameA (args : List PgDatum) : pg_10_11.FunctionCallInfoData :=
  make_function_call_info_pg10 args.length
    (args.map PgDatum.into_datum ++ List.replicate (100 - args.length) 0)
    (args.map PgDatum.is_null ++ List.replicate (100 - args.length) false)

/-- The Shape-B frame `direct_function_call` builds for `args`
(meaningful when `args.length ≤ 100`): zeroed header, `nargs` from the
length, and one `NullableDatum` pair per argument. -/
def marshalledFramePg12 (args : List PgDatum) : pg_12.FunctionCallInfoBaseData :=
  { flinfo := 0
    context := 0
    resultinfo := 0
    fncollation := 0
    isnull := false
    nargs := i16OfNat args.length
    args := args.map fun d => pg_12.NullableDatum.mk d.value d.is_null }

lemma i16OfNat_of_le {n : Nat} (h : n ≤ 100) : i16OfNat n = n := by
  unfold i16OfNat
  rw [Int.emod_eq_of_lt (by omega) (by omega)]
  omega

lemma usizeOfI16_i16OfNat {n : Nat} (h : n ≤ 100) : usizeOfI16 (i16OfNat n) = n := by
  rw [i16OfNat_of_le h]
  unfold usizeOfI16
  rw [Int.emod_eq_of_lt (by omega) (by omega)]
  exact Int.toNat_natCast n

lemma buildArgArrays_of_le {args : List PgDatum} (h : args.length ≤ 100) :
    buildArgArrays args =
      some (args.map PgDatum.into_datum ++ List.replicate (100 - args.length) 0,
            args.map PgDatum.is_null ++ List.replicate (100 - args.length) false) := by
  unfold buildArgArrays
  rw [if_pos h]

lemma make_function_call_info_pg12_marshalled {args : List PgDatum}
    (_h : args.length ≤ 100) :
    make_function_call_info_pg12 args.length
      (args.map PgDatum.into_datum ++ List.replicate (100 - args.length) 0)
      (args.map PgDatum.is_null ++ List.replicate (100 - args.length) false) =
    some (pg_12.sizeOfFunctionCallInfoBaseData + args.length * pg_12.sizeOfNullableDatum,
          marshalledFramePg12 args) := by
  unfold make_function_call_info_pg12 marshalledFramePg12
  rw [if_pos (by constructor <;> simp)]
  have h1 : (args.map PgDatum.into_datum ++ List.replicate (100 - args.length) 0).take
      args.length = args.map PgDatum.into_datum := by
    apply List.take_left'
    simp
  have h2 : (args.map PgDatum.is_null ++ List.replicate (100 - args.length) false).take
      args.length = args.map PgDatum.is_null := by
    apply List.take_left'
    simp
  rw [h1, h2, List.zipWith_map, List.zipWith_same]
  rfl

lemma direct_function_call_pg10_eq
    {func : pg_10_11.FunctionCallInfoData → pg_10_11.FunctionCallInfoData × Datum}
    {args : List PgDatum} (h : args.length ≤ 100) :
    direct_function_call_pg10 func args =
      some (PgDatum.new (func (marshalledFrameA args)).2
        (func (marshalledFrameA args)).1.isnull) := by
  unfold direct_function_call_pg10 marshalledFrameA
  rw [buildArgArrays_of_le h]

lemma direct_function_call_pg12_eq
    {func : pg_12.FunctionCallInfoBaseData → pg_12.FunctionCallInfoBaseData × Datum}
    {args : List PgDatum} (h : args.length ≤ 100) :
    direct_function_call_pg12 func args =
      some (PgDatum.new (func (marshalledFramePg12 args)).2
        (func (marshalledFramePg12 args)).1.isnull) := by
  simp only [direct_function_call_pg12, buildArgArrays_of_le h,
    make_function_call_info_pg12_marshalled h]

lemma sizeOfNullableDatum_eq : pg_12.sizeOfNullableDatum = 16 := rfl

lemma sizeOfFunctionCallInfoBaseData_eq : pg_12.sizeOfFunctionCallInfoBaseData = 32 := rfl

lemma marshalledFrameA_arg (args : List PgDatum) :
    (marshalledFrameA args).arg =
      args.map PgDatum.into_datum ++ List.replicate (100 - args.length) 0 := rfl

lemma marshalledFrameA_argnull (args : List PgDatum) :
    (marshalledFrameA args).argnull =
      args.map PgDatum.is_null ++ List.replicate (100 - args.length) false := rfl

lemma marshalledFrameA_arg_getElem {args : List PgDatum} {i : Nat}
    (h : i < args.length) :
    (marshalledFrameA args).arg[i]? = some (args.get ⟨i, h⟩).value := by
  rw [marshalledFrameA_arg]
  rw [List.getElem?_append_left (by simpa using h)]
  simp [List.getElem?_eq_getElem h, PgDatum.into_datum]

lemma marshalledFrameA_argnull_getElem {args : List PgDatum} {i : Nat}
    (h : i < args.length) :
    (marshalledFrameA args).argnull[i]? = some (args.get ⟨i, h⟩).is_null := by
  rw [marshalledFrameA_argnull]
  rw [List.getElem?_append_left (by simpa using h)]
  simp [List.getElem?_eq_getElem h]

lemma get_nullable_datum_marshalled {args : List PgDatum} {i : Nat}
    (h : i < args.length) (h100 : args.length ≤ 100) :
    pg_12.get_nullable_datum (marshalledFramePg12 args) i =
      .ok ⟨(args.get ⟨i, h⟩).value, (args.get ⟨i, h⟩).is_null⟩ := by
  unfold pg_12.get_nullable_datum marshalledFramePg12
  simp only
  rw [usizeOfI16_i16OfNat h100, sizeOfNullableDatum_eq]
  rw [if_pos (by omega)]
  rw [List.getElem?_map, List.getElem?_eq_getElem h]
  rfl

lemma marshalledFrameA_raw {args : List PgDatum} {i : Nat} (h : i < args.length) :
    pg_10_11.pg_getarg_datum_raw (marshalledFrameA args) i =
      .ok (args.get ⟨i, h⟩).value := by
  unfold pg_10_11.pg_getarg_datum_raw listRead
  rw [marshalledFrameA_arg_getElem h]

lemma marshalledFrameA_is_null {args : List PgDatum} {i : Nat} (h : i < args.length) :
    pg_10_11.pg_arg_is_null (marshalledFrameA args) i =
      .ok (args.get ⟨i, h⟩).is_null := by
  unfold pg_10_11.pg_arg_is_null listRead
  rw [marshalledFrameA_argnull_getElem h]

/-- **C1** (shape transparency): on a frame built by synthetic
invocation from `args` (marshaling succeeds exactly when
`args.length ≤ 100`), for every index `i < args.length` the raw-value
accessor returns exactly `args[i]`'s raw value and the null accessor
returns exactly `args[i]`'s null flag — identically under the pg10 and
pg11 parallel-array shape and under the pg12 interleaved
`NullableDatum`-tail shape. -/
theorem c1_shape_transparency (args : List PgDatum) (i : Nat)
    (h : i < args.length) (h100 : args.length ≤ 100) :
    pg_10_11.pg_getarg_datum_raw (marshalledFrameA args) i =
        .ok (args.get ⟨i, h⟩).value
    ∧ pg_10_11.pg_arg_is_null (marshalledFrameA args) i =
        .ok (args.get ⟨i, h⟩).is_null
    ∧ make_function_call_info_pg11 args.length
        (args.map PgDatum.into_datum ++ List.replicate (100 - args.length) 0)
        (args.map PgDatum.is_null ++ List.replicate (100 - args.length) false) =
        marshalledFrameA args
    ∧ pg_12.pg_getarg_datum_raw (marshalledFramePg12 args) i =
        .ok (args.get ⟨i, h⟩).value
    ∧ pg_12.pg_arg_is_null (marshalledFramePg12 args) i =
        .ok (args.get ⟨i, h⟩).is_null := by
  refine ⟨marshalledFrameA_raw h, marshalledFrameA_is_null h, rfl, ?_, ?_⟩
  · unfold pg_12.pg_getarg_datum_raw
    rw [get_nullable_datum_marshalled h h100]
    rfl
  · unfold pg_12.pg_arg_is_null
    rw [get_nullable_datum_marshalled h h100]
    rfl

/-- Witness for C1 at `args = [(7, null), (42, not null)]`, `i = 1`. -/
theorem c1_shape_transparency_witness :
    pg_10_11.pg_getarg_datum_raw
        (marshalledFrameA [PgDatum.new 7 true, PgDatum.new 42 false]) 1 = .ok 42
    ∧ pg_10_11.pg_arg_is_null
        (marshalledFrameA [PgDatum.new 7 true, PgDatum.new 42 false]) 1 = .ok false
    ∧ make_function_call_info_pg11 2
        ([PgDatum.new 7 true, PgDatum.new 42 false].map PgDatum.into_datum ++
          List.replicate 98 0)
        ([PgDatum.new 7 true, PgDatum.new 42 false].map PgDatum.is_null ++
          List.replicate 98 false) =
        marshalledFrameA [PgDatum.new 7 true, PgDatum.new 42 false]
    ∧ pg_12.pg_getarg_datum_raw
        (marshalledFramePg12 [PgDatum.new 7 true, PgDatum.new 42 false]) 1 = .ok 42
    ∧ pg_12.pg_arg_is_null
        (marshalledFramePg12 [PgDatum.new 7 true, PgDatum.new 42 false]) 1 =
        .ok false :=
  c1_shape_transparency [PgDatum.new 7 true, PgDatum.new 42 false] 1
    (by decide) (by decide)

/-- **C2** (`invoke_native` round-trip): a native function that copies
argument 0's raw slot to its return value and does not touch the
result-null flag, called through `direct_function_call` on
`[(42, not null)]`, yields `(42, not null)` under both shapes; in
general the returned nullable value is composed of the function's raw
return value and the frame's `isnull` flag as read after the call. -/
theorem c2_invoke_native_roundtrip :
    direct_function_call_pg10 copyArg0_pg10 [PgDatum.new 42 false] =
        some (PgDatum.new 42 false)
    ∧ direct_function_call_pg12 copyArg0_pg12 [PgDatum.new 42 false] =
        some (PgDatum.new 42 false)
    ∧ (∀ func args, args.length ≤ 100 →
        direct_function_call_pg10 func args =
          some (PgDatum.new (func (marshalledFrameA args)).2
            (func (marshalledFrameA args)).1.isnull))
    ∧ (∀ func args, args.length ≤ 100 →
        direct_function_call_pg12 func args =
          some (PgDatum.new (func (marshalledFramePg12 args)).2
            (func (marshalledFramePg12 args)).1.isnull)) :=
  ⟨by decide, by decide,
   fun _ _ h => direct_function_call_pg10_eq h,
   fun _ _ h => direct_function_call_pg12_eq h⟩

/-- Witness for C2's general composition parts at a one-argument call. -/
theorem c2_invoke_native_roundtrip_witness :
    direct_function_call_pg10 copyArg0_pg10 [PgDatum.new 9 true] =
      some (PgDatum.new
        (copyArg0_pg10 (marshalledFrameA [PgDatum.new 9 true])).2
        (copyArg0_pg10 (marshalledFrameA [PgDatum.new 9 true])).1.isnull)
    ∧ direct_function_call_pg12 copyArg0_pg12 [PgDatum.new 9 true] =
      some (PgDatum.new
        (copyArg0_pg12 (marshalledFramePg12 [PgDatum.new 9 true])).2
        (copyArg0_pg12 (marshalledFramePg12 [PgDatum.new 9 true])).1.isnull) :=
  ⟨c2_invoke_native_roundtrip.2.2.1 copyArg0_pg10 [PgDatum.new 9 true] (by decide),
   c2_invoke_native_roundtrip.2.2.2 copyArg0_pg12 [PgDatum.new 9 true] (by decide)⟩

/-- Counterexample to **C3** as stated: under the pg12 shape, a
101-argument synthetic invocation does not build a frame — the
marshaling loop writes into fixed 100-element arrays and panics
(modelled as `none`), so Shape B does share Shape A's argument-count
ceiling. -/
theorem c3_counterexample :
    (List.replicate 101 (PgDatum.new 0 false)).length = 101
    ∧ direct_function_call_pg12 (fun f => (f, 0))
        (List.replicate 101 (PgDatum.new 0 false)) = none := by
  constructor
  · decide
  · unfold direct_function_call_pg12 buildArgArrays
    rw [if_neg (by decide)]

/-- **C3 amended**: under the pg12 shape, synthetic invocation builds a
correctly sized frame and invokes the function for every argument list
of length at most 100 (the capacity of the fixed marshaling arrays in
`direct_function_call`); for longer lists it panics before allocating,
exactly as under Shape A, so Shape B shares the 100-argument ceiling. -/
theorem c3_amended_ceiling
    (func : pg_12.FunctionCallInfoBaseData → pg_12.FunctionCallInfoBaseData × Datum)
    (args : List PgDatum) :
    (args.length ≤ 100 →
      direct_function_call_pg12 func args =
        some (PgDatum.new (func (marshalledFramePg12 args)).2
          (func (marshalledFramePg12 args)).1.isnull))
    ∧ (100 < args.length → direct_function_call_pg12 func args = none) := by
  constructor
  · exact fun h => direct_function_call_pg12_eq h
  · intro h
    unfold direct_function_call_pg12 buildArgArrays
    rw [if_neg (by omega)]

/-- Witness for C3's amended statement: both regimes at concrete argument lists. -/
theorem c3_amended_ceiling_witness :
    direct_function_call_pg12 copyArg0_pg12 [PgDatum.new 5 false] =
      some (PgDatum.new
        (copyArg0_pg12 (marshalledFramePg12 [PgDatum.new 5 false])).2
        (copyArg0_pg12 (marshalledFramePg12 [PgDatum.new 5 false])).1.isnull)
    ∧ direct_function_call_pg12 copyArg0_pg12
        (List.replicate 101 (PgDatum.new 5 false)) = none :=
  ⟨(c3_amended_ceiling copyArg0_pg12 [PgDatum.new 5 false]).1 (by decide),
   (c3_amended_ceiling copyArg0_pg12 (List.replicate 101 (PgDatum.new 5 false))).2
     (by decide)⟩

lemma listRead_of_le {α : Type} {xs : List α} {i : Nat} (h : xs.length ≤ i) :
    listRead xs i = .panics := by
  unfold listRead
  rw [List.getElem?_eq_none h]

lemma listRead_of_lt {α : Type} {xs : List α} {i : Nat} (h : i < xs.length) :
    listRead xs i = .ok (xs.get ⟨i, h⟩) := by
  unfold listRead
  rw [List.getElem?_eq_getElem h]
  rfl

lemma get_nullable_datum_panics {f : pg_12.FunctionCallInfoBaseData} {i : Nat}
    (h : pg_12.sizeOfNullableDatum * usizeOfI16 f.nargs ≤ i) :
    pg_12.get_nullable_datum f i = .panics := by
  unfold pg_12.get_nullable_datum
  simp only
  rw [if_neg (by omega)]

lemma get_nullable_datum_undef {f : pg_12.FunctionCallInfoBaseData} {i : Nat}
    (h1 : f.args.length ≤ i)
    (h2 : i < pg_12.sizeOfNullableDatum * usizeOfI16 f.nargs) :
    pg_12.get_nullable_datum f i = .undef := by
  unfold pg_12.get_nullable_datum
  simp only
  rw [if_pos h2, List.getElem?_eq_none h1]

lemma get_nullable_datum_ok {f : pg_12.FunctionCallInfoBaseData} {i : Nat}
    (h1 : i < f.args.length)
    (h2 : i < pg_12.sizeOfNullableDatum * usizeOfI16 f.nargs) :
    pg_12.get_nullable_datum f i = .ok (f.args.get ⟨i, h1⟩) := by
  unfold pg_12.get_nullable_datum
  simp only
  rw [if_pos h2, List.getElem?_eq_getElem h1]
  rfl

/-- Counterexample to **C4** as stated: on the Shape-A frame built for
the single argument `(7, not null)` (so `nargs = 1`), reading index 5
is out of range (`5 ≥ 1`) yet `pg_getarg_datum_raw` silently returns
the zeroed unused slot instead of aborting. -/
theorem c4_counterexample :
    (marshalledFrameA [PgDatum.new 7 false]).nargs = 1
    ∧ pg_10_11.pg_getarg_datum_raw (marshalledFrameA [PgDatum.new 7 false]) 5 =
        .ok 0 := by
  decide

/-- **C4 amended**: out-of-range argument access (`i ≥ nargs`) is not
uniformly detected.  Each accessor panics only when the index exceeds
the physical extent of the argument area: under Shape A when `i ≥ 100`
(the fixed array capacity), under Shape B when
`i ≥ size_of(NullableDatum) * nargs` (`get_nullable_datum` passes a
byte count as the slice's element count).  Below those bounds the
accessors return without aborting: Shape A yields the unused parallel
array slots, Shape B an unspecified read past the allocated tail. -/
theorem c4_amended_bounds :
    (∀ (f : pg_10_11.FunctionCallInfoData),
      f.arg.length = 100 → f.argnull.length = 100 →
      ∀ i : Nat,
        (100 ≤ i →
          pg_10_11.pg_getarg f i = .panics
          ∧ pg_10_11.pg_arg_is_null f i = .panics
          ∧ pg_10_11.pg_getarg_datum f i = .panics
          ∧ pg_10_11.pg_getarg_datum_raw f i = .panics)
        ∧ (i < 100 →
          pg_10_11.pg_getarg f i ≠ .panics
          ∧ pg_10_11.pg_arg_is_null f i ≠ .panics
          ∧ pg_10_11.pg_getarg_datum f i ≠ .panics
          ∧ pg_10_11.pg_getarg_datum_raw f i ≠ .panics))
    ∧ (∀ (f : pg_12.FunctionCallInfoBaseData),
        f.args.length = usizeOfI16 f.nargs →
        ∀ i : Nat,
          (pg_12.sizeOfNullableDatum * usizeOfI16 f.nargs ≤ i →
            pg_12.pg_getarg f i = .panics
            ∧ pg_12.pg_arg_is_null f i = .panics
            ∧ pg_12.pg_getarg_datum f i = .panics
            ∧ pg_12.pg_getarg_datum_raw f i = .panics)
          ∧ (i < usizeOfI16 f.nargs →
            pg_12.pg_getarg f i ≠ .panics
            ∧ pg_12.pg_arg_is_null f i ≠ .panics
            ∧ pg_12.pg_getarg_datum f i ≠ .panics
            ∧ pg_12.pg_getarg_datum_raw f i ≠ .panics)
          ∧ (usizeOfI16 f.nargs ≤ i →
              i < pg_12.sizeOfNullableDatum * usizeOfI16 f.nargs →
            pg_12.pg_getarg f i = .undef
            ∧ pg_12.pg_arg_is_null f i = .undef
            ∧ pg_12.pg_getarg_datum f i = .undef
            ∧ pg_12.pg_getarg_datum_raw f i = .undef)) := by
  constructor
  · intro f h1 h2 i
    constructor
    · intro hi
      have ha : listRead f.arg i = .panics := listRead_of_le (by omega)
      have hn : listRead f.argnull i = .panics := listRead_of_le (by omega)
      refine ⟨?_, hn, ?_, ha⟩
      · simp [pg_10_11.pg_getarg, ha, ReadResult.bind]
      · simp [pg_10_11.pg_getarg_datum, pg_10_11.pg_arg_is_null, hn, ReadResult.bind]
    · intro hi
      have ha := listRead_of_lt (show i < f.arg.length by omega)
      have hn := listRead_of_lt (show i < f.argnull.length by omega)
      refine ⟨?_, ?_, ?_, ?_⟩
      · simp [pg_10_11.pg_getarg, ha, hn, ReadResult.bind]
      · simp [pg_10_11.pg_arg_is_null, hn]
      · simp only [pg_10_11.pg_getarg_datum, pg_10_11.pg_arg_is_null, hn,
          ReadResult.bind]
        cases f.argnull.get ⟨i, by omega⟩ with
        | true => simp
        | false => simp [ha, ReadResult.bind]
      · simp [pg_10_11.pg_getarg_datum_raw, ha]
  · intro f hlen i
    refine ⟨?_, ?_, ?_⟩
    · intro hi
      have hg := get_nullable_datum_panics (f := f) (i := i) hi
      refine ⟨?_, ?_, ?_, ?_⟩
      · simp [pg_12.pg_getarg, hg, ReadResult.bind]
      · simp [pg_12.pg_arg_is_null, hg, ReadResult.bind]
      · simp [pg_12.pg_getarg_datum, pg_12.pg_arg_is_null, hg, ReadResult.bind]
      · simp [pg_12.pg_getarg_datum_raw, hg, ReadResult.bind]
    · intro hi
      have hb : i < pg_12.sizeOfNullableDatum * usizeOfI16 f.nargs := by
        rw [sizeOfNullableDatum_eq]
        omega
      have hg := get_nullable_datum_ok (f := f) (i := i) (by omega) hb
      refine ⟨?_, ?_, ?_, ?_⟩
      · simp [pg_12.pg_getarg, hg, ReadResult.bind]
      · simp [pg_12.pg_arg_is_null, hg, ReadResult.bind]
      · simp only [pg_12.pg_getarg_datum, pg_12.pg_arg_is_null, hg, ReadResult.bind]
        cases (f.args.get ⟨i, by omega⟩).isnull with
        | true => simp
        | false => simp [hg, ReadResult.bind]
      · simp [pg_12.pg_getarg_datum_raw, hg, ReadResult.bind]
    · intro hi1 hi2
      have hg := get_nullable_datum_undef (f := f) (i := i) (by omega) hi2
      refine ⟨?_, ?_, ?_, ?_⟩
      · simp [pg_12.pg_getarg, hg, ReadResult.bind]
      · simp [pg_12.pg_arg_is_null, hg, ReadResult.bind]
      · simp [pg_12.pg_getarg_datum, pg_12.pg_arg_is_null, hg, ReadResult.bind]
      · simp [pg_12.pg_getarg_datum_raw, hg, ReadResult.bind]

/-- Witness for C4's amended statement: on one-argument synthetic
frames, index 5 (out of range but under the physical bound) does not
panic under Shape A, and is an unspecified non-panicking read under
Shape B. -/
theorem c4_amended_bounds_witness :
    pg_10_11.pg_getarg_datum_raw (marshalledFrameA [PgDatum.new 7 false]) 5 ≠
        .panics
    ∧ pg_12.pg_getarg_datum_raw (marshalledFramePg12 [PgDatum.new 7 false]) 5 =
        .undef :=
  ⟨((c4_amended_bounds.1 (marshalledFrameA [PgDatum.new 7 false])
      (by decide) (by decide) 5).2 (by decide)).2.2.2,
   ((c4_amended_bounds.2 (marshalledFramePg12 [PgDatum.new 7 false])
      (by decide) 5).2.2 (by decide) (by decide)).2.2.2⟩

/-- **C5** (`pg_getarg_datum` composition): whenever the null accessor
and the raw accessor both read slot `i` without fault, returning `b`
and `v`, the optional accessor returns `none` exactly when `b` is true
and `some v` otherwise — under both shapes. -/
theorem c5_datum_option_composition
    (fA : pg_10_11.FunctionCallInfoData) (fB : pg_12.FunctionCallInfoBaseData)
    (i j : Nat) (bA bB : Bool) (vA vB : Datum)
    (hA1 : pg_10_11.pg_arg_is_null fA i = .ok bA)
    (hA2 : pg_10_11.pg_getarg_datum_raw fA i = .ok vA)
    (hB1 : pg_12.pg_arg_is_null fB j = .ok bB)
    (hB2 : pg_12.pg_getarg_datum_raw fB j = .ok vB) :
    pg_10_11.pg_getarg_datum fA i = .ok (if bA then none else some vA)
    ∧ pg_12.pg_getarg_datum fB j = .ok (if bB then none else some vB) := by
  constructor
  · have hraw : listRead fA.arg i = .ok vA := hA2
    simp only [pg_10_11.pg_getarg_datum, hA1, ReadResult.bind]
    cases bA with
    | true => simp
    | false => simp [hraw, ReadResult.bind]
  · cases hg : pg_12.get_nullable_datum fB j with
    | panics =>
      rw [show pg_12.pg_arg_is_null fB j =
        (pg_12.get_nullable_datum fB j).bind (fun d => .ok d.isnull) from rfl, hg]
        at hB1
      simp [ReadResult.bind] at hB1
    | undef =>
      rw [show pg_12.pg_arg_is_null fB j =
        (pg_12.get_nullable_datum fB j).bind (fun d => .ok d.isnull) from rfl, hg]
        at hB1
      simp [ReadResult.bind] at hB1
    | ok d =>
      have hb : d.isnull = bB := by
        rw [show pg_12.pg_arg_is_null fB j =
          (pg_12.get_nullable_datum fB j).bind (fun d => .ok d.isnull) from rfl, hg]
          at hB1
        simpa [ReadResult.bind] using hB1
      have hv : d.value = vB := by
        rw [show pg_12.pg_getarg_datum_raw fB j =
          (pg_12.get_nullable_datum fB j).bind (fun d => .ok d.value) from rfl, hg]
          at hB2
        simpa [ReadResult.bind] using hB2
      simp only [pg_12.pg_getarg_datum, pg_12.pg_arg_is_null, hg, ReadResult.bind]
      rw [hb]
      cases bB with
      | true => simp
      | false => simp [hv]

/-- Witness for C5 at the two-argument scenario of the spec:
slot 0 holds `(7, not null)`, slot 1 holds `(0, null)`. -/
theorem c5_datum_option_composition_witness :
    pg_10_11.pg_getarg_datum
        (marshalledFrameA [PgDatum.new 7 false, PgDatum.new 0 true]) 1 = .ok none
    ∧ pg_12.pg_getarg_datum
        (marshalledFramePg12 [PgDatum.new 7 false, PgDatum.new 0 true]) 1 =
        .ok none := by
  have h := c5_datum_option_composition
    (marshalledFrameA [PgDatum.new 7 false, PgDatum.new 0 true])
    (marshalledFramePg12 [PgDatum.new 7 false, PgDatum.new 0 true])
    1 1 true true 0 0 (by decide) (by decide) (by decide) (by decide)
  simpa using h

/-- **C6** (`pg_return_null` frame effect): under both shapes,
`pg_return_null` sets the frame's `isnull` flag to true, returns the
zero `Datum`, always succeeds, and leaves every other field of the
frame — argument area, `nargs`, `flinfo`, `context`, `resultinfo`,
`fncollation` — unchanged. -/
theorem c6_return_null_effect (fA : pg_10_11.FunctionCallInfoData)
    (fB : pg_12.FunctionCallInfoBaseData) :
    (pg_10_11.pg_return_null fA).1.isnull = true
    ∧ (pg_10_11.pg_return_null fA).2 = 0
    ∧ (pg_10_11.pg_return_null fA).1.flinfo = fA.flinfo
    ∧ (pg_10_11.pg_return_null fA).1.context = fA.context
    ∧ (pg_10_11.pg_return_null fA).1.resultinfo = fA.resultinfo
    ∧ (pg_10_11.pg_return_null fA).1.fncollation = fA.fncollation
    ∧ (pg_10_11.pg_return_null fA).1.nargs = fA.nargs
    ∧ (pg_10_11.pg_return_null fA).1.arg = fA.arg
    ∧ (pg_10_11.pg_return_null fA).1.argnull = fA.argnull
    ∧ (pg_12.pg_return_null fB).1.isnull = true
    ∧ (pg_12.pg_return_null fB).2 = 0
    ∧ (pg_12.pg_return_null fB).1.flinfo = fB.flinfo
    ∧ (pg_12.pg_return_null fB).1.context = fB.context
    ∧ (pg_12.pg_return_null fB).1.resultinfo = fB.resultinfo
    ∧ (pg_12.pg_return_null fB).1.fncollation = fB.fncollation
    ∧ (pg_12.pg_return_null fB).1.nargs = fB.nargs
    ∧ (pg_12.pg_return_null fB).1.args = fB.args :=
  ⟨rfl, rfl, rfl, rfl, rfl, rfl, rfl, rfl, rfl, rfl, rfl, rfl, rfl, rfl, rfl,
   rfl, rfl⟩

/-- Witness for C6 at concrete frames (applies the theorem at the
one-argument synthetic frames of both shapes). -/
theorem c6_return_null_effect_witness :
    (pg_10_11.pg_return_null (marshalledFrameA [PgDatum.new 3 false])).1.isnull =
        true
    ∧ (pg_12.pg_return_null (marshalledFramePg12 [PgDatum.new 3 false])).2 = 0 :=
  ⟨(c6_return_null_effect (marshalledFrameA [PgDatum.new 3 false])
      (marshalledFramePg12 [PgDatum.new 3 false])).1,
   (c6_return_null_effect (marshalledFrameA [PgDatum.new 3 false])
      (marshalledFramePg12 [PgDatum.new 3 false])).2.2.2.2.2.2.2.2.2.2.1⟩

/-- **C7** (Shape-B allocation is exactly sized): `size_of` of
`NullableDatum` is 16 and of `FunctionCallInfoBaseData` is 32 under the
`repr(C)` layout of the pg12 bindings; every successful
`make_function_call_info` (pg12) requests exactly
`header_size + nargs * pair_size` zero-initialized bytes from the host
allocator, and for every `n ≤ 100` (in particular `0, 1, 8, 100`) the
request for `n` arguments is exactly `32 + n * 16` bytes. -/
theorem c7_alloc_exact_size :
    pg_12.sizeOfNullableDatum = 16
    ∧ pg_12.sizeOfFunctionCallInfoBaseData = 32
    ∧ (∀ (nargs : Nat) (aa : List Datum) (na : List Bool) (bytes : Nat)
        (f : pg_12.FunctionCallInfoBaseData),
        make_function_call_info_pg12 nargs aa na = some (bytes, f) →
        bytes = pg_12.sizeOfFunctionCallInfoBaseData +
          nargs * pg_12.sizeOfNullableDatum)
    ∧ (∀ n : Nat, n ≤ 100 →
        ∃ f, make_function_call_info_pg12 n (List.replicate 100 0)
          (List.replicate 100 false) = some (32 + n * 16, f)) := by
  refine ⟨rfl, rfl, ?_, ?_⟩
  · intro nargs aa na bytes f hmk
    unfold make_function_call_info_pg12 at hmk
    by_cases hc : nargs ≤ aa.length ∧ nargs ≤ na.length
    · rw [if_pos hc] at hmk
      exact (congrArg Prod.fst (Option.some.inj hmk)).symm
    · rw [if_neg hc] at hmk
      exact absurd hmk (by simp)
  · intro n hn
    refine ⟨⟨0, 0, 0, 0, false, i16OfNat n,
      List.zipWith (fun v b => pg_12.NullableDatum.mk v b)
        ((List.replicate 100 (0 : Datum)).take n)
        ((List.replicate 100 false).take n)⟩, ?_⟩
    unfold make_function_call_info_pg12
    rw [if_pos (by constructor <;> simpa using hn)]
    rfl

/-- Witness for C7 at `n = 8`: the requested allocation is 160 bytes. -/
theorem c7_alloc_exact_size_witness :
    ∃ f, make_function_call_info_pg12 8 (List.replicate 100 0)
      (List.replicate 100 false) = some (32 + 8 * 16, f) :=
  c7_alloc_exact_size.2.2.2 8 (by decide)

/-- **C8** (Shape-A overflow is loud): a synthetic invocation with more
than 100 arguments under the pg10/pg11 shape panics in the marshaling
loop (modelled as `none`) — the argument list is never silently
truncated to the fixed capacity. -/
theorem c8_shape_a_overflow_panics
    (func : pg_10_11.FunctionCallInfoData → pg_10_11.FunctionCallInfoData × Datum)
    (args : List PgDatum) (h : 100 < args.length) :
    direct_function_call_pg10 func args = none := by
  unfold direct_function_call_pg10 buildArgArrays
  rw [if_neg (by omega)]

/-- Witness for C8 at a 101-argument list. -/
theorem c8_shape_a_overflow_panics_witness :
    direct_function_call_pg10 copyArg0_pg10
      (List.replicate 101 (PgDatum.new 1 false)) = none :=
  c8_shape_a_overflow_panics copyArg0_pg10
    (List.replicate 101 (PgDatum.new 1 false)) (by decide)

/-- **C9** (idempotent, non-mutating null reads): under both shapes,
`pg_arg_is_null` hands back the frame it was given unchanged (its body
performs no store), so calling it twice on the same unmodified frame
and index returns the same result both times. -/
theorem c9_is_null_idempotent (fA : pg_10_11.FunctionCallInfoData) (i : Nat)
    (fB : pg_12.FunctionCallInfoBaseData) (j : Nat) :
    (pg_10_11.pg_arg_is_null_call fA i).2 = fA
    ∧ (pg_10_11.pg_arg_is_null_call ((pg_10_11.pg_arg_is_null_call fA i).2) i).1 =
        (pg_10_11.pg_arg_is_null_call fA i).1
    ∧ (pg_12.pg_arg_is_null_call fB j).2 = fB
    ∧ (pg_12.pg_arg_is_null_call ((pg_12.pg_arg_is_null_call fB j).2) j).1 =
        (pg_12.pg_arg_is_null_call fB j).1 :=
  ⟨rfl, rfl, rfl, rfl⟩

/-- Witness for C9 at concrete frames and index 0. -/
theorem c9_is_null_idempotent_witness :
    (pg_10_11.pg_arg_is_null_call (marshalledFrameA [PgDatum.new 2 true]) 0).2 =
        marshalledFrameA [PgDatum.new 2 true]
    ∧ (pg_12.pg_arg_is_null_call (marshalledFramePg12 [PgDatum.new 2 true]) 0).2 =
        marshalledFramePg12 [PgDatum.new 2 true] :=
  ⟨(c9_is_null_idempotent (marshalledFrameA [PgDatum.new 2 true]) 0
      (marshalledFramePg12 [PgDatum.new 2 true]) 0).1,
   (c9_is_null_idempotent (marshalledFrameA [PgDatum.new 2 true]) 0
      (marshalledFramePg12 [PgDatum.new 2 true]) 0).2.2.1⟩

/-- **C10** (fresh-frame initialization): every synthetic frame starts
with `isnull = false`, null `flinfo`/`context`/`resultinfo` pointers,
collation `InvalidOid` (zero), and `nargs` equal to the argument-list
length, under all three version variants; consequently a called
function that never touches the flag yields a non-null result. -/
theorem c10_fresh_frame_init (nargs : Nat) (aa : List Datum) (na : List Bool)
    (h : nargs ≤ 100) :
    make_function_call_info_pg10 nargs aa na =
      ⟨0, 0, 0, InvalidOid, false, (nargs : Int), aa, na⟩
    ∧ make_function_call_info_pg11 nargs aa na =
      ⟨0, 0, 0, InvalidOid, false, (nargs : Int), aa, na⟩
    ∧ (∀ (bytes : Nat) (f : pg_12.FunctionCallInfoBaseData),
        make_function_call_info_pg12 nargs aa na = some (bytes, f) →
        f = ⟨0, 0, 0, InvalidOid, false, (nargs : Int), f.args⟩)
    ∧ (∀ func args, (args : List PgDatum).length ≤ 100 →
        (∀ fr, ((func fr).1).isnull = fr.isnull) →
        ∃ v, direct_function_call_pg10 func args = some (PgDatum.new v false))
    ∧ (∀ func args, (args : List PgDatum).length ≤ 100 →
        (∀ fr, ((func fr).1).isnull = fr.isnull) →
        ∃ v, direct_function_call_pg12 func args = some (PgDatum.new v false)) := by
  refine ⟨?_, ?_, ?_, ?_, ?_⟩
  · unfold make_function_call_info_pg10
    rw [i16OfNat_of_le h]
  · unfold make_function_call_info_pg11
    rw [i16OfNat_of_le h]
  · intro bytes f hmk
    unfold make_function_call_info_pg12 at hmk
    by_cases hc : nargs ≤ aa.length ∧ nargs ≤ na.length
    · rw [if_pos hc] at hmk
      obtain ⟨hb, hf⟩ := (Prod.mk.injEq _ _ _ _).mp (Option.some.inj hmk)
      subst hf
      simp [InvalidOid, i16OfNat_of_le h]
    · rw [if_neg hc] at hmk
      exact absurd hmk (by simp)
  · intro func args hlen hpres
    refine ⟨(func (marshalledFrameA args)).2, ?_⟩
    rw [direct_function_call_pg10_eq hlen, hpres (marshalledFrameA args)]
    rfl
  · intro func args hlen hpres
    refine ⟨(func (marshalledFramePg12 args)).2, ?_⟩
    rw [direct_function_call_pg12_eq hlen, hpres (marshalledFramePg12 args)]
    rfl

/-- Witness for C10 at `nargs = 2` and a flag-preserving native
function. -/
theorem c10_fresh_frame_init_witness :
    make_function_call_info_pg10 2 (List.replicate 100 0)
        (List.replicate 100 false) =
      ⟨0, 0, 0, InvalidOid, false, (2 : Int), List.replicate 100 0,
        List.replicate 100 false⟩
    ∧ ∃ v, direct_function_call_pg12 copyArg0_pg12 [PgDatum.new 3 false] =
        some (PgDatum.new v false) :=
  ⟨(c10_fresh_frame_init 2 (List.replicate 100 0) (List.replicate 100 false)
      (by decide)).1,
   (c10_fresh_frame_init 2 (List.replicate 100 0) (List.replicate 100 false)
      (by decide)).2.2.2.2 copyArg0_pg12 [PgDatum.new 3 false] (by decide)
      (fun _ => rfl)⟩

end Pgx
